import Mathlib

/-!
# amj-chatbot: the two chat widgets

A shallow embedding of `static/js/script.js` (class `StudentChatbot`, the widget
toggle and the avatar fallback) and of `static/js/college_chatbot.js`.

DOM nodes are records holding exactly the properties the scripts assign.  The
two asynchronous functions are split at their single suspension point (the
`fetch` of `/chat`): one function for the statements that run before it, one for
the continuation, which takes the way the request settled as an argument.
JavaScript strings are Lean strings; the time label, the scroll calls and the
CSS animation class of a message are not part of the state.
-/

namespace AmjChatbot

/-! ## JavaScript values -/

/-- JSON values as `response.json()` produces them, plus `undefined`. -/
inductive JsVal where
  | undefined : JsVal
  | null : JsVal
  | bool (b : Bool) : JsVal
  | num (q : ℚ) : JsVal
  | str (s : String) : JsVal
  | arr (items : List JsVal) : JsVal
  | obj (fields : List (String × JsVal)) : JsVal

/-- Exceptions the scripts can raise or receive. -/
inductive JsError where
  /-- Rejection of `fetch` (network failure). -/
  | network : JsError
  /-- The `throw new Error(...)` of `sendMessage` on `!response.ok`. -/
  | http : JsError
  /-- The body is not JSON: `response.json()` rejected. -/
  | badJson : JsError
  /-- Property read on `null`/`undefined`, or call of a non-function. -/
  | typeError : JsError
  deriving DecidableEq, Repr

/-- JavaScript truthiness (`if (v)`, `v || w`). -/
def JsVal.truthy : JsVal → Bool
  | .undefined => false
  | .null => false
  | .bool b => b
  | .num q => decide (q ≠ 0)
  | .str s => decide (s ≠ "")
  | .arr _ => true
  | .obj _ => true

/-- Result of `typeof v === 'object'`. -/
def JsVal.typeofObject : JsVal → Bool
  | .null => true
  | .arr _ => true
  | .obj _ => true
  | _ => false

/-- Property read `v.name` for a name that no prototype defines (`response`,
`faq_id`, `html`): a `TypeError` on `null` and `undefined`, the field of an
object, `undefined` everywhere else. -/
def JsVal.getProp (v : JsVal) (name : String) : Except JsError JsVal :=
  match v with
  | .undefined => .error .typeError
  | .null => .error .typeError
  | .obj fields => .ok ((fields.lookup name).getD .undefined)
  | _ => .ok .undefined

/-! ## Strings -/

/-- White space and line terminators, the characters `String.prototype.trim`
strips. -/
def isJsWhitespace (c : Char) : Bool :=
  let n := c.toNat
  n == 0x09 || n == 0x0A || n == 0x0B || n == 0x0C || n == 0x0D || n == 0x20 ||
  n == 0xA0 || n == 0x1680 || (0x2000 ≤ n && n ≤ 0x200A) || n == 0x2028 ||
  n == 0x2029 || n == 0x202F || n == 0x205F || n == 0x3000 || n == 0xFEFF

/-- The method `String.prototype.trim` on the characters of a string. -/
def trimChars (cs : List Char) : List Char :=
  ((cs.dropWhile isJsWhitespace).reverse.dropWhile isJsWhitespace).reverse

/-- The call `s.trim()`. -/
def trim (s : String) : String := ⟨trimChars s.data⟩

/-- The call `text.replace(/\n/g, '<br>')` on the characters of a string: a left-to-right
scan that emits `<br>` for a line feed and the character itself otherwise. -/
def replaceNewlines : List Char → List Char
  | [] => []
  | c :: cs => if c = '\n' then '<' :: 'b' :: 'r' :: '>' :: replaceNewlines cs
               else c :: replaceNewlines cs

/-- The method `StudentChatbot.formatMessage(text)` for a string argument (script.js
176-179). -/
def formatMessage (text : String) : String := ⟨replaceNewlines text.data⟩

/-- The method `formatMessage` on an arbitrary value: `text.replace` is a function only when
`text` is a string; `undefined` and `null` have no properties and every other
JSON value has no callable `replace`, so the call raises a `TypeError`. -/
def formatMessageVal : JsVal → Except JsError String
  | .str s => .ok (formatMessage s)
  | _ => .error .typeError

/-- Length of a string in UTF-16 code units, what `s.length` reports. -/
def utf16Length (cs : List Char) : Nat :=
  (cs.map fun c => if c.toNat < 0x10000 then 1 else 2).sum

/-! ## Shared DOM and network records -/

/-- The `sender` argument of `addMessage`. -/
inductive Sender where
  | user : Sender
  | bot : Sender
  deriving DecidableEq, Repr

/-- Which property of the text element received the message content. -/
inductive TextSlot where
  /-- Assignment `el.textContent = v`: the value is shown as literal characters. -/
  | textContent (v : JsVal) : TextSlot
  /-- Assignment `el.innerHTML = v`: the value is parsed as markup. -/
  | innerHTML (v : JsVal) : TextSlot

/-- A call of `fetch`: path, method, and the value passed to `JSON.stringify`
for the body. -/
structure Request where
  url : String
  method : String
  body : JsVal

/-- How the `fetch` of `/chat` settles: the promise rejects, or a response
arrives with its `ok` flag and its body (`none` when the body is not JSON). -/
inductive FetchOutcome where
  | rejected : FetchOutcome
  | response (ok : Bool) (json : Option JsVal) : FetchOutcome

/-- A click listener registered by the scripts: `() => postVote(faq_id, helpful)`. -/
inductive Listener where
  | postVote (faq_id : JsVal) (helpful : Bool) : Listener

/-- The request `postVote(faq_id, helpful)` sends (script.js 234-236,
college_chatbot.js 71-73). -/
def voteRequest (faq_id : JsVal) (helpful : Bool) : Request :=
  { url := "/api/vote", method := "POST",
    body := .obj [("faq_id", faq_id), ("helpful", .bool helpful)] }

/-- The request both `sendMessage` functions send. -/
def chatRequest (message : String) : Request :=
  { url := "/chat", method := "POST", body := .obj [("message", .str message)] }

/-- The failures of the `/chat` request: the fetch rejects, the status is not a
success status, or the body does not parse as JSON. -/
def FetchOutcome.isFailure : FetchOutcome → Bool
  | .rejected => true
  | .response ok json => !ok || json.isNone

/-- The request delivered no JSON body: the fetch rejects or the body cannot be
parsed. -/
def FetchOutcome.noBody : FetchOutcome → Bool
  | .rejected => true
  | .response _ json => json.isNone

/-! ## script.js: the bot avatar (lines 106-123) -/

namespace Script

/-- Markup of the placeholder that `img.onerror` writes into the avatar. -/
def placeholderSvg : String :=
  "\n                    <svg width=\"20\" height=\"20\" viewBox=\"0 0 24 24\" fill=\"none\" xmlns=\"http://www.w3.org/2000/svg\" aria-hidden=\"true\">\n                        <circle cx=\"12\" cy=\"12\" r=\"10\" fill=\"#60a5fa\" />\n                        <text x=\"12\" y=\"16\" text-anchor=\"middle\" font-size=\"9\" font-family=\"Arial, Helvetica, sans-serif\" fill=\"#fff\">AMJ</text>\n                    </svg>"

/-- Markup of the avatar of a user message. -/
def userSvg : String :=
  "\n                <svg width=\"20\" height=\"20\" viewBox=\"0 0 24 24\" fill=\"none\" xmlns=\"http://www.w3.org/2000/svg\" aria-hidden=\"true\">\n                    <path d=\"M12 12a4 4 0 1 0 0-8 4 4 0 0 0 0 8zM4 20a8 8 0 0 1 16 0\" fill=\"#fff\" opacity=\"0.95\"/>\n                </svg>"

/-- The avatar `div` of a bot message together with the `img` its handler
closes over.  `srcWrites` lists every value assigned to `img.src`, oldest first:
each assignment starts one load attempt. -/
structure BotAvatar where
  src : String
  fallbackTried : String
  imgAttached : Bool
  innerHTML : Option String
  srcWrites : List String

/-- The avatar as lines 109-123 leave it. -/
def newBotAvatar : BotAvatar :=
  { src := "/static/images/chatbot-logo.png", fallbackTried := "false",
    imgAttached := true, innerHTML := none,
    srcWrites := ["/static/images/chatbot-logo.png"] }

/-- The `img.onerror` handler (lines 112-120). -/
def onerror (a : BotAvatar) : BotAvatar :=
  if a.fallbackTried = "false" then
    { a with fallbackTried := "true", src := "/chatbot-logo.png",
             srcWrites := a.srcWrites ++ ["/chatbot-logo.png"] }
  else
    { a with imgAttached := false, innerHTML := some placeholderSvg }

/-- The state after a sequence of `n` load-error events. -/
def afterErrors (n : Nat) (a : BotAvatar) : BotAvatar := onerror^[n] a

/-- The avatar `div` of a message. -/
inductive AvatarDiv where
  | bot (a : BotAvatar) : AvatarDiv
  | user (innerHTML : String) : AvatarDiv

/-! ## script.js: `StudentChatbot` -/

/-- The `div.message` that `addMessage` appends.  `voteListeners` holds the click
listeners added to the elements of class `vote-btn` inside it, as pairs of the
element's index in `querySelectorAll('.vote-btn')` and the listener. -/
structure Message where
  sender : Sender
  avatar : AvatarDiv
  text : TextSlot
  voteListeners : List (Nat × Listener)

/-- The widget: the input, the send button, the children of `#chat-body`, the
network, the notices of `showError` and the `console.error` log.  `inFlight`
counts the `/chat` requests that were issued and have not settled. -/
structure Chatbot where
  inputValue : String
  inputDisabled : Bool
  sendDisabled : Bool
  chatMessages : List Message
  requests : List Request
  inFlight : Nat
  notices : List String
  consoleErrors : List JsError

/-- The text of the fallback bot message (line 91). -/
def fallbackText : String :=
  "Sorry, I'm having trouble connecting right now. Please try again in a moment."

/-- The method `setInputState(enabled)` (lines 189-196). -/
def setInputState (s : Chatbot) (enabled : Bool) : Chatbot :=
  { s with inputDisabled := !enabled, sendDisabled := !enabled }

/-- The method `showError(message)` (lines 210-231): a notice appended to
`document.body`. -/
def showError (s : Chatbot) (message : String) : Chatbot :=
  { s with notices := s.notices ++ [message] }

/-- The method `addMessage(text, sender)` (lines 98-174).  For a bot message
`formatMessage(text)` runs before the node is appended, so when it throws the
page is unchanged. -/
def addMessage (s : Chatbot) (text : JsVal) (sender : Sender) : Except JsError Chatbot :=
  match sender with
  | .bot =>
    match formatMessageVal text with
    | .error e => .error e
    | .ok html =>
      .ok { s with chatMessages := s.chatMessages ++
              [{ sender := .bot, avatar := .bot newBotAvatar,
                 text := .innerHTML (.str html), voteListeners := [] }] }
  | .user =>
    .ok { s with chatMessages := s.chatMessages ++
            [{ sender := .user, avatar := .user userSvg,
               text := .textContent text, voteListeners := [] }] }

/-- Length of `node.querySelectorAll('.vote-btn')` on a message.  `addMessage`
creates no element of that class, so the only candidates are elements the HTML
parser builds from the markup given to `innerHTML`.  The parser is the
browser's: `parser markup` is the number of such elements it builds.  Markup
without a `<` has no tag, and from it the parser builds character data only. -/
def voteBtnCount (parser : String → Nat) (m : Message) : Nat :=
  match m.text with
  | .innerHTML (.str markup) => if markup.data.contains '<' then parser markup else 0
  | _ => 0

/-- Lines 79-84: take the last child of `#chat-body` and, when it holds exactly
two `.vote-btn` elements, add one click listener to each. -/
def attachVoteHandlers (parser : String → Nat) (s : Chatbot) (faq_id : JsVal) :
    Except JsError Chatbot :=
  match s.chatMessages.getLast? with
  | none => .error .typeError
  | some last =>
    if voteBtnCount parser last = 2 then
      .ok { s with chatMessages := s.chatMessages.dropLast ++
              [{ last with voteListeners := last.voteListeners ++
                   [(0, .postVote faq_id true), (1, .postVote faq_id false)] }] }
    else .ok s

/-- Lines 42-66 of `sendMessage`: everything up to the `await fetch`.  The flag
tells whether the function is now suspended on a request. -/
def sendMessageSync (s : Chatbot) : Except JsError (Chatbot × Bool) :=
  let message := trim s.inputValue
  if message = "" then
    .ok (showError s "Please enter a message", false)
  else
    match addMessage (setInputState s false) (.str message) .user with
    | .error e => .error e
    | .ok s1 =>
      .ok ({ s1 with inputValue := "", requests := s1.requests ++ [chatRequest message],
                     inFlight := s1.inFlight + 1 }, true)

/-- The `try` block of `sendMessage` from the point where the fetch settles
(lines 66-86): the state it reaches and the exception that left it, if any. -/
def sendMessageTry (parser : String → Nat) (s : Chatbot) (o : FetchOutcome) :
    Chatbot × Option JsError :=
  match o with
  | .rejected => (s, some .network)
  | .response false _ => (s, some .http)
  | .response true none => (s, some .badJson)
  | .response true (some data) =>
    match data.getProp "response" with
    | .error e => (s, some e)
    | .ok resp =>
      match addMessage s resp .bot with
      | .error e => (s, some e)
      | .ok s1 =>
        match data.getProp "faq_id" with
        | .error e => (s1, some e)
        | .ok faq_id =>
          if faq_id.truthy then
            match attachVoteHandlers parser s1 faq_id with
            | .error e => (s1, some e)
            | .ok s2 => (setInputState s2 true, none)
          else (setInputState s1 true, none)

/-- The continuation of `sendMessage` once its request settled: the `try` block
and, when it threw, the `catch` block (lines 88-95). -/
def sendMessageResume (parser : String → Nat) (s : Chatbot) (o : FetchOutcome) :
    Except JsError Chatbot :=
  match sendMessageTry parser { s with inFlight := s.inFlight - 1 } o with
  | (s1, none) => .ok s1
  | (s1, some e) =>
    match addMessage { s1 with consoleErrors := s1.consoleErrors ++ [e] }
            (.str fallbackText) .bot with
    | .error e2 => .error e2
    | .ok s2 => .ok (setInputState s2 true)

/-- One whole call of `sendMessage` (lines 41-96) whose request, if one is sent,
settles as `o`.  An `error` result is a rejection of the returned promise. -/
def sendMessage (parser : String → Nat) (s : Chatbot) (o : FetchOutcome) :
    Except JsError Chatbot :=
  match sendMessageSync s with
  | .error e => .error e
  | .ok (s1, true) => sendMessageResume parser s1 o
  | .ok (s1, false) => .ok s1

/-- The node `addMessage(t, 'user')` appends. -/
def userMessage (t : String) : Message :=
  { sender := .user, avatar := .user userSvg, text := .textContent (.str t),
    voteListeners := [] }

/-- The node `addMessage(text, 'bot')` appends when `formatMessage(text)` is
`markup`. -/
def botMessage (markup : String) : Message :=
  { sender := .bot, avatar := .bot newBotAvatar, text := .innerHTML (.str markup),
    voteListeners := [] }

/-! ### The send triggers of script.js -/

/-- What can happen to the widget: the user edits the input, clicks the send
button, presses Enter in the input, clicks a `.quick` button (its `data-q`
attribute, if any, and its text), the page calls `sendSuggestion(message)`, or
the oldest request in flight settles. -/
inductive Event where
  | typeText (value : String) : Event
  | clickSend : Event
  | pressEnter : Event
  | quickReply (dataQ : Option String) (textContent : String) : Event
  | suggestion (message : String) : Event
  | settle (o : FetchOutcome) : Event

/-- Modelled from the spec: the template that declares `#user-input` is not
among the sources; the element is the spec's input field, a single-line text
input, whose value sanitization drops every line feed and carriage return from
a text assigned to `input.value` or entered by the user. -/
def sanitizeValue (v : String) : String :=
  ⟨v.data.filter fun c => !(c = '\n' || c = '\r')⟩

/-- The part of `sendMessage` a trigger runs before control returns to the event
loop. -/
def trigger (s : Chatbot) : Chatbot :=
  match sendMessageSync s with
  | .ok (s1, _) => s1
  | .error _ => s

/-- One step of the event loop.  The browser delivers no click to a disabled
button and no key or edit to a disabled input; the quick-reply listener (lines
291-299) and `sendSuggestion` (lines 242-248) assign `input.value` and call
`sendMessage` whatever the state of the controls. -/
def step (parser : String → Nat) (s : Chatbot) : Event → Chatbot
  | .typeText v => if s.inputDisabled then s else { s with inputValue := sanitizeValue v }
  | .clickSend => if s.sendDisabled then s else trigger s
  | .pressEnter => if s.inputDisabled then s else trigger s
  | .quickReply dataQ textContent =>
    let q := match dataQ with
      | some d => if d ≠ "" then d else trim textContent
      | none => trim textContent
    trigger { s with inputValue := sanitizeValue q }
  | .suggestion message => trigger { s with inputValue := sanitizeValue message }
  | .settle o =>
    if s.inFlight = 0 then s
    else match sendMessageResume parser s o with
      | .ok s1 => s1
      | .error _ => s

/-- Run a sequence of events. -/
def run (parser : String → Nat) (s : Chatbot) (evs : List Event) : Chatbot :=
  evs.foldl (step parser) s

/-- The widget right after construction: controls enabled, nothing in flight. -/
def initial : Chatbot :=
  { inputValue := "", inputDisabled := false, sendDisabled := false,
    chatMessages := [], requests := [], inFlight := 0, notices := [],
    consoleErrors := [] }

/-! ## script.js: `wireWidgetToggle` (lines 326-360) -/

/-- The page state the toggle handlers touch, on a page that has the
`#chat-toggle` element (without it line 328 returns and no listener is
registered): the `widget-open` class of the body, the `aria-label` of the toggle
(`none` until a handler sets it) and the number of focus timers started. -/
structure Page where
  widgetOpen : Bool
  ariaLabel : Option String
  focusTimers : Nat

/-- Where a click landed: whether `.chat-app` contains the target, and whether
`target.closest('#chat-toggle')` finds the toggle. -/
structure ClickTarget where
  insideApp : Bool
  onToggle : Bool

/-- The function `openWidget()` (lines 330-335). -/
def openWidget (p : Page) : Page :=
  { widgetOpen := true, ariaLabel := some "Close chat", focusTimers := p.focusTimers + 1 }

/-- The function `closeWidget()` (lines 337-340). -/
def closeWidget (p : Page) : Page :=
  { p with widgetOpen := false, ariaLabel := some "Open chat" }

/-- The click listener of the toggle (lines 342-344). -/
def toggleClick (p : Page) : Page :=
  if p.widgetOpen then closeWidget p else openWidget p

/-- The `keydown` listener of the document (lines 347-351). -/
def documentKeydown (p : Page) (key : String) : Page :=
  if key = "Escape" && p.widgetOpen then closeWidget p else p

/-- The click listener of the document (lines 354-359).  `appExists` tells
whether `document.querySelector('.chat-app')` finds an element; when it does
not, `app.contains` throws and the listener ends without closing. -/
def documentClick (appExists : Bool) (p : Page) (t : ClickTarget) : Page :=
  if !p.widgetOpen then p
  else if !appExists then p
  else if !t.insideApp && !t.onToggle then closeWidget p
  else p

/-- A click event: the listener of the toggle runs when the target is the
toggle or inside it, then the event bubbles to the listener of the document. -/
def click (appExists : Bool) (p : Page) (t : ClickTarget) : Page :=
  documentClick appExists (if t.onToggle then toggleClick p else p) t

end Script

/-! ## college_chatbot.js -/

namespace College

/-- A `button.vote-btn` with its label and click listeners. -/
structure VoteButton where
  className : String
  textContent : String
  clickListeners : List Listener

/-- The `div.msg` that `addMessage` appends: the `span` and, for a bot message,
the children of the `div.vote-bar`. -/
structure Message where
  sender : Sender
  span : TextSlot
  voteBar : Option (List VoteButton)

/-- The widget: the input, the children of `#chatbox-body`, the network, and
the rejections of promises that have no handler. -/
structure Chatbox where
  inputValue : String
  body : List Message
  requests : List Request
  inFlight : Nat
  unhandledRejections : List JsError

/-- The function `postVote(faq_id, helpful)` (lines 71-73). -/
def postVote (s : Chatbox) (faq_id : JsVal) (helpful : Bool) : Chatbox :=
  { s with requests := s.requests ++ [voteRequest faq_id helpful] }

/-- The function `addMessage(text, sender)` (lines 14-45).  Reading `text.faq_id` throws when
`text` is `null`, before anything is appended. -/
def addMessage (s : Chatbox) (text : JsVal) (sender : Sender) : Except JsError Chatbox :=
  match sender with
  | .bot =>
    let read : Except JsError (JsVal × JsVal) :=
      if text.typeofObject then
        match text.getProp "faq_id" with
        | .error e => .error e
        | .ok faq_id =>
          match text.getProp "html" with
          | .error e => .error e
          | .ok html => .ok (faq_id, if html.truthy then html else .str "")
      else .ok (.null, text)
    match read with
    | .error e => .error e
    | .ok (faq_id, markup) =>
      let up : VoteButton :=
        { className := "vote-btn", textContent := "Helpful 👍",
          clickListeners := if faq_id.truthy then [.postVote faq_id true] else [] }
      let down : VoteButton :=
        { className := "vote-btn", textContent := "Not helpful 👎",
          clickListeners := if faq_id.truthy then [.postVote faq_id false] else [] }
      .ok { s with body := s.body ++
              [{ sender := .bot, span := .innerHTML markup, voteBar := some [up, down] }] }
  | .user =>
    .ok { s with body := s.body ++
            [{ sender := .user, span := .textContent text, voteBar := none }] }

/-- The node `addMessage(t, 'user')` appends. -/
def userMessage (t : String) : Message :=
  { sender := .user, span := .textContent (.str t), voteBar := none }

/-- The identifier a bot message content carries: the value of the `faq_id`
field of an object content, when JavaScript takes that value as present, that
is, when it is none of `undefined`, `null`, `false`, `0` and the empty string. -/
def identifierOf : JsVal → Option JsVal
  | .obj fields =>
    match fields.lookup "faq_id" with
    | some v => if v.truthy then some v else none
    | none => none
  | _ => none

/-- A click on a vote button: its listeners run in the order they were added. -/
def clickButton (s : Chatbox) (b : VoteButton) : Chatbox :=
  b.clickListeners.foldl (fun acc l => match l with
    | .postVote faq_id helpful => postVote acc faq_id helpful) s

/-- Lines 48-56 of `sendMessage`: everything up to the call of `fetch`.  The
flag tells whether a request was sent. -/
def sendMessageSync (s : Chatbox) : Except JsError (Chatbox × Bool) :=
  let text := trim s.inputValue
  if text = "" then .ok (s, false)
  else
    match addMessage s (.str text) .user with
    | .error e => .error e
    | .ok s1 =>
      .ok ({ s1 with inputValue := "", requests := s1.requests ++ [chatRequest text],
                     inFlight := s1.inFlight + 1 }, true)

/-- The promise chain `.then(res => res.json()).then(data => addMessage(...))`
(lines 57-60) once the fetch settled.  The chain has no rejection handler: a
rejected fetch, an unparsable body or an exception in the last callback ends
as an unhandled rejection.  `res.ok` is not read. -/
def sendMessageResume (s : Chatbox) (o : FetchOutcome) : Chatbox :=
  let s0 := { s with inFlight := s.inFlight - 1 }
  match o with
  | .rejected => { s0 with unhandledRejections := s0.unhandledRejections ++ [.network] }
  | .response _ none =>
    { s0 with unhandledRejections := s0.unhandledRejections ++ [.badJson] }
  | .response _ (some data) =>
    match data.getProp "response" with
    | .error e => { s0 with unhandledRejections := s0.unhandledRejections ++ [e] }
    | .ok resp =>
      match addMessage s0 resp .bot with
      | .error e => { s0 with unhandledRejections := s0.unhandledRejections ++ [e] }
      | .ok s1 => s1

/-- One whole call of `sendMessage` (lines 47-61) whose request, if one is sent,
settles as `o`. -/
def sendMessage (s : Chatbox) (o : FetchOutcome) : Except JsError Chatbox :=
  match sendMessageSync s with
  | .error e => .error e
  | .ok (s1, true) => .ok (sendMessageResume s1 o)
  | .ok (s1, false) => .ok s1

end College

/-! ## Lemmas on strings -/

theorem trimChars_eq_nil (cs : List Char) (h : ∀ c ∈ cs, isJsWhitespace c = true) :
    trimChars cs = [] := by
  have h1 : cs.dropWhile isJsWhitespace = [] := by
    rw [List.dropWhile_eq_nil_iff]; exact h
  simp [trimChars, h1]

theorem trim_eq_empty (s : String) (h : ∀ c ∈ s.data, isJsWhitespace c = true) :
    trim s = "" := by
  simp [trim, trimChars_eq_nil s.data h]

theorem newline_not_mem_replaceNewlines (cs : List Char) : '\n' ∉ replaceNewlines cs := by
  induction cs with
  | nil => simp [replaceNewlines]
  | cons c cs ih =>
    unfold replaceNewlines
    split
    · simp only [List.mem_cons, not_or]
      exact ⟨by decide, by decide, by decide, by decide, ih⟩
    · simp only [List.mem_cons, not_or]
      rename_i hc
      exact ⟨fun h => hc h.symm, ih⟩

theorem replaceNewlines_of_not_mem (cs : List Char) (h : '\n' ∉ cs) :
    replaceNewlines cs = cs := by
  induction cs with
  | nil => rfl
  | cons c cs ih =>
    simp only [List.mem_cons, not_or] at h
    have hc : c ≠ '\n' := fun e => h.1 e.symm
    simp [replaceNewlines, hc, ih h.2]

theorem replaceNewlines_length (cs : List Char) :
    (replaceNewlines cs).length = cs.length + 3 * cs.count '\n' := by
  induction cs with
  | nil => rfl
  | cons c cs ih =>
    by_cases hc : c = '\n'
    · subst hc
      simp [replaceNewlines, ih]
      omega
    · have hc2 : ¬ (c == '\n') = true := by simpa using hc
      simp [replaceNewlines, hc, ih, List.count_cons, hc2]
      omega

theorem replaceNewlines_utf16Length (cs : List Char) :
    utf16Length (replaceNewlines cs) = utf16Length cs + 3 * cs.count '\n' := by
  induction cs with
  | nil => rfl
  | cons c cs ih =>
    by_cases hc : c = '\n'
    · subst hc
      have e : utf16Length (replaceNewlines ('\n' :: cs)) = 4 + utf16Length (replaceNewlines cs) := by
        simp [replaceNewlines, utf16Length]
        omega
      have e2 : utf16Length ('\n' :: cs) = 1 + utf16Length cs := by
        have h1 : ('\n' : Char).toNat < 65536 := by decide
        simp [utf16Length, h1]
      rw [e, e2, ih]
      simp
      omega
    · have hc2 : ¬ (c == '\n') = true := by simpa using hc
      have e : utf16Length (replaceNewlines (c :: cs)) =
          (if c.toNat < 65536 then 1 else 2) + utf16Length (replaceNewlines cs) := by
        simp [replaceNewlines, hc, utf16Length]
      have e2 : utf16Length (c :: cs) = (if c.toNat < 65536 then 1 else 2) + utf16Length cs := by
        simp [utf16Length]
      rw [e, e2, ih]
      simp [List.count_cons, hc2]
      omega

theorem replaceNewlines_eq_flatMap (cs : List Char) :
    replaceNewlines cs =
      cs.flatMap (fun c => if c = '\n' then ['<', 'b', 'r', '>'] else [c]) := by
  induction cs with
  | nil => rfl
  | cons c cs ih =>
    by_cases hc : c = '\n'
    · simp [replaceNewlines, hc, ih]
    · simp [replaceNewlines, hc, ih]

/-! ## C10: `formatMessage` -/

/-- C10: `formatMessage(s)` is `s` with every line feed replaced by the four
characters `<br>` and every other character kept in place; the result holds no
line feed, is `s` itself when `s` holds none, and is longer than `s` by three
per line feed, counted in characters and in UTF-16 code units alike. -/
theorem formatMessage_replaces_newlines (s : String) :
    (formatMessage s).data =
        s.data.flatMap (fun c => if c = '\n' then "<br>".data else [c]) ∧
    '\n' ∉ (formatMessage s).data ∧
    ('\n' ∉ s.data → formatMessage s = s) ∧
    (formatMessage s).length = s.length + 3 * s.data.count '\n' ∧
    utf16Length (formatMessage s).data = utf16Length s.data + 3 * s.data.count '\n' := by
  refine ⟨replaceNewlines_eq_flatMap s.data, newline_not_mem_replaceNewlines s.data, ?_,
    replaceNewlines_length s.data, replaceNewlines_utf16Length s.data⟩
  intro h
  show (⟨replaceNewlines s.data⟩ : String) = s
  rw [replaceNewlines_of_not_mem s.data h]

theorem formatMessage_replaces_newlines_witness :
    '\n' ∉ "<b>Fees</b>".data ∧ formatMessage "<b>Fees</b>" = "<b>Fees</b>" :=
  ⟨by decide, (formatMessage_replaces_newlines "<b>Fees</b>").2.2.1 (by decide)⟩

/-! ## C9: the avatar fallback chain -/

theorem onerror_afterErrors_two :
    Script.onerror (Script.afterErrors 2 Script.newBotAvatar) =
      Script.afterErrors 2 Script.newBotAvatar := rfl

theorem afterErrors_add_two (k : Nat) :
    Script.afterErrors (k + 2) Script.newBotAvatar =
      Script.afterErrors 2 Script.newBotAvatar := by
  induction k with
  | zero => rfl
  | succ k ih =>
    have e : Script.afterErrors (k + 1 + 2) Script.newBotAvatar =
        Script.onerror (Script.afterErrors (k + 2) Script.newBotAvatar) := by
      unfold Script.afterErrors
      exact Function.iterate_succ_apply' Script.onerror (k + 2) Script.newBotAvatar
    rw [e, ih]
    exact onerror_afterErrors_two

/-- C9: on the avatar image of a bot message, the first load error sets the
source to `/chatbot-logo.png` and marks the fallback as tried, leaving the image
in place; the second removes the image and writes the SVG placeholder; every
later error leaves that state as it is; and after any number of errors the
source has been assigned at most twice, the primary path and then the
fallback path. -/
theorem avatar_fallback_chain (n : Nat) :
    ((Script.afterErrors 1 Script.newBotAvatar).src = "/chatbot-logo.png" ∧
      (Script.afterErrors 1 Script.newBotAvatar).fallbackTried = "true" ∧
      (Script.afterErrors 1 Script.newBotAvatar).imgAttached = true ∧
      (Script.afterErrors 1 Script.newBotAvatar).innerHTML = none) ∧
    ((Script.afterErrors 2 Script.newBotAvatar).imgAttached = false ∧
      (Script.afterErrors 2 Script.newBotAvatar).innerHTML = some Script.placeholderSvg ∧
      (Script.afterErrors 2 Script.newBotAvatar).srcWrites =
        ["/static/images/chatbot-logo.png", "/chatbot-logo.png"]) ∧
    (2 ≤ n → Script.afterErrors n Script.newBotAvatar =
        Script.afterErrors 2 Script.newBotAvatar) ∧
    (Script.afterErrors n Script.newBotAvatar).srcWrites.length ≤ 2 ∧
    (Script.afterErrors n Script.newBotAvatar).srcWrites <+:
        ["/static/images/chatbot-logo.png", "/chatbot-logo.png"] := by
  have hstable : 2 ≤ n → Script.afterErrors n Script.newBotAvatar =
      Script.afterErrors 2 Script.newBotAvatar := by
    intro h
    obtain ⟨k, rfl⟩ : ∃ k, n = k + 2 := ⟨n - 2, by omega⟩
    exact afterErrors_add_two k
  refine ⟨⟨rfl, rfl, rfl, rfl⟩, ⟨rfl, rfl, rfl⟩, hstable, ?_, ?_⟩
  · rcases Nat.lt_or_ge n 2 with h | h
    · interval_cases n
      · exact Nat.le_succ 1
      · exact Nat.le_refl 2
    · rw [hstable h]; exact Nat.le_refl 2
  · rcases Nat.lt_or_ge n 2 with h | h
    · interval_cases n
      · exact ⟨["/chatbot-logo.png"], rfl⟩
      · exact ⟨[], rfl⟩
    · rw [hstable h]; exact ⟨[], rfl⟩

theorem avatar_fallback_chain_witness :
    2 ≤ 5 ∧ Script.afterErrors 5 Script.newBotAvatar =
      Script.afterErrors 2 Script.newBotAvatar :=
  ⟨by decide, (avatar_fallback_chain 5).2.2.1 (by decide)⟩

/-! ## C8: the widget toggle -/

/-- C8: two consecutive clicks on the toggle restore the open/closed state they
started from; an Escape keydown closes an open widget; a Script.click outside both
`.chat-app` and the toggle closes an open widget; and the document's click
listener leaves the state alone when the target is inside `.chat-app` or on the
toggle. -/
theorem widget_toggle_state_machine (appExists : Bool) (p : Script.Page) (t t2 : Script.ClickTarget) :
    (t.onToggle = true → t2.onToggle = true →
      (Script.click appExists (Script.click appExists p t) t2).widgetOpen = p.widgetOpen) ∧
    (p.widgetOpen = true → (Script.documentKeydown p "Escape").widgetOpen = false) ∧
    (p.widgetOpen = true → appExists = true → t.insideApp = false → t.onToggle = false →
      (Script.click appExists p t).widgetOpen = false) ∧
    (t.insideApp = true ∨ t.onToggle = true → Script.documentClick appExists p t = p) := by
  obtain ⟨o, l, f⟩ := p
  obtain ⟨ia, ot⟩ := t
  obtain ⟨ia2, ot2⟩ := t2
  refine ⟨?_, ?_, ?_, ?_⟩
  · intro h1 h2
    simp only at h1 h2
    subst h1 h2
    cases o <;> cases appExists <;> cases ia <;> cases ia2 <;>
      simp [Script.click, Script.toggleClick, Script.documentClick, Script.openWidget, Script.closeWidget]
  · intro h
    simp only at h
    subst h
    simp [Script.documentKeydown, Script.closeWidget]
  · intro h1 h2 h3 h4
    simp only at h1 h3 h4
    subst h1 h2 h3 h4
    simp [Script.click, Script.documentClick, Script.closeWidget]
  · intro h
    simp only at h
    rcases h with h | h <;> subst h <;> cases o <;> cases appExists <;>
      simp [Script.documentClick]

theorem widget_toggle_state_machine_witness :
    (Script.click true (Script.click true ⟨false, none, 0⟩ ⟨false, true⟩) ⟨false, true⟩).widgetOpen = false ∧
    (Script.documentKeydown ⟨true, none, 0⟩ "Escape").widgetOpen = false ∧
    (Script.click true ⟨true, none, 0⟩ ⟨false, false⟩).widgetOpen = false ∧
    Script.documentClick true ⟨true, none, 0⟩ ⟨true, false⟩ = ⟨true, none, 0⟩ :=
  ⟨(widget_toggle_state_machine true ⟨false, none, 0⟩ ⟨false, true⟩ ⟨false, true⟩).1 rfl rfl,
   (widget_toggle_state_machine true ⟨true, none, 0⟩ ⟨false, false⟩ ⟨false, false⟩).2.1 rfl,
   (widget_toggle_state_machine true ⟨true, none, 0⟩ ⟨false, false⟩ ⟨false, false⟩).2.2.1
      rfl rfl rfl rfl,
   (widget_toggle_state_machine true ⟨true, none, 0⟩ ⟨true, false⟩ ⟨false, false⟩).2.2.2
      (Or.inl rfl)⟩

/-- One click on the toggle flips the open/closed state. -/
theorem toggle_click_flips_state (appExists : Bool) (p : Script.Page)
    (t : Script.ClickTarget) (h : t.onToggle = true) :
    (Script.click appExists p t).widgetOpen = !p.widgetOpen := by
  obtain ⟨o, l, f⟩ := p
  obtain ⟨ia, ot⟩ := t
  simp only at h
  subst h
  cases o <;> cases appExists <;> cases ia <;>
    simp [Script.click, Script.toggleClick, Script.documentClick, Script.openWidget,
      Script.closeWidget]

/-! ## Lemmas on `StudentChatbot.sendMessage` -/

theorem getProp_ok_of_ok (v : JsVal) (a b : String) (x : JsVal)
    (h : v.getProp a = .ok x) : ∃ y, v.getProp b = .ok y := by
  cases v <;> simp_all [JsVal.getProp]

theorem script_sync_empty (s : Script.Chatbot) (h : trim s.inputValue = "") :
    Script.sendMessageSync s = .ok (Script.showError s "Please enter a message", false) := by
  simp [Script.sendMessageSync, h]

theorem script_sync_nonempty (s : Script.Chatbot) (h : trim s.inputValue ≠ "") :
    Script.sendMessageSync s =
      .ok ({ inputValue := "", inputDisabled := true, sendDisabled := true,
             chatMessages := s.chatMessages ++ [Script.userMessage (trim s.inputValue)],
             requests := s.requests ++ [chatRequest (trim s.inputValue)],
             inFlight := s.inFlight + 1, notices := s.notices,
             consoleErrors := s.consoleErrors }, true) := by
  simp [Script.sendMessageSync, h, Script.addMessage, Script.setInputState,
    Script.userMessage]

theorem script_try_cases (parser : String → Nat) (s : Script.Chatbot) (o : FetchOutcome) :
    (∃ e, Script.sendMessageTry parser s o = (s, some e)) ∨
    (∃ m, m.sender = .bot ∧ Script.sendMessageTry parser s o =
      ({ s with chatMessages := s.chatMessages ++ [m], inputDisabled := false,
                sendDisabled := false }, none)) := by
  rcases o with _ | ⟨ok, json⟩
  · exact Or.inl ⟨_, rfl⟩
  cases ok
  · exact Or.inl ⟨_, rfl⟩
  rcases json with _ | data
  · exact Or.inl ⟨_, rfl⟩
  cases hr : data.getProp "response" with
  | error e => exact Or.inl ⟨e, by simp [Script.sendMessageTry, hr]⟩
  | ok resp =>
    obtain ⟨fid, hf⟩ := getProp_ok_of_ok data "response" "faq_id" resp hr
    cases resp with
    | str r =>
      right
      by_cases ht : fid.truthy = true
      · by_cases hc : Script.voteBtnCount parser (Script.botMessage (formatMessage r)) = 2
        · refine ⟨{ Script.botMessage (formatMessage r) with
            voteListeners := [(0, .postVote fid true), (1, .postVote fid false)] }, rfl, ?_⟩
          have hc2 : Script.voteBtnCount parser
              { sender := .bot, avatar := .bot Script.newBotAvatar,
                text := .innerHTML (.str (formatMessage r)), voteListeners := [] } = 2 := hc
          simp [Script.sendMessageTry, hr, hf, ht, Script.addMessage, formatMessageVal,
            Script.attachVoteHandlers, hc2, Script.setInputState, Script.botMessage]
        · refine ⟨Script.botMessage (formatMessage r), rfl, ?_⟩
          have hc2 : ¬ Script.voteBtnCount parser
              { sender := .bot, avatar := .bot Script.newBotAvatar,
                text := .innerHTML (.str (formatMessage r)), voteListeners := [] } = 2 := hc
          simp [Script.sendMessageTry, hr, hf, ht, Script.addMessage, formatMessageVal,
            Script.attachVoteHandlers, hc2, Script.setInputState, Script.botMessage]
      · refine ⟨Script.botMessage (formatMessage r), rfl, ?_⟩
        simp [Script.sendMessageTry, hr, hf, ht, Script.addMessage, formatMessageVal,
          Script.setInputState, Script.botMessage]
    | _ =>
      left
      exact ⟨.typeError, by simp [Script.sendMessageTry, hr, Script.addMessage, formatMessageVal]⟩

theorem formatMessage_fallbackText :
    formatMessage Script.fallbackText = Script.fallbackText := by decide

theorem script_resume_of_throw (parser : String → Nat) (s : Script.Chatbot) (o : FetchOutcome)
    (e : JsError)
    (h : Script.sendMessageTry parser { s with inFlight := s.inFlight - 1 } o =
      ({ s with inFlight := s.inFlight - 1 }, some e)) :
    Script.sendMessageResume parser s o =
      .ok { inputValue := s.inputValue, inputDisabled := false, sendDisabled := false,
            chatMessages := s.chatMessages ++ [Script.botMessage Script.fallbackText],
            requests := s.requests, inFlight := s.inFlight - 1, notices := s.notices,
            consoleErrors := s.consoleErrors ++ [e] } := by
  simp only [Script.sendMessageResume, h, Script.addMessage, formatMessageVal,
    formatMessage_fallbackText]
  rfl

theorem script_resume_total (parser : String → Nat) (s : Script.Chatbot) (o : FetchOutcome) :
    ∃ s1 m, Script.sendMessageResume parser s o = .ok s1 ∧ m.sender = .bot ∧
      s1.chatMessages = s.chatMessages ++ [m] ∧ s1.inputDisabled = false ∧
      s1.sendDisabled = false ∧ s1.requests = s.requests ∧
      s1.inFlight = s.inFlight - 1 := by
  rcases script_try_cases parser { s with inFlight := s.inFlight - 1 } o with ⟨e, h⟩ | ⟨m, hm, h⟩
  · exact ⟨_, Script.botMessage Script.fallbackText, script_resume_of_throw parser s o e h,
      rfl, rfl, rfl, rfl, rfl, rfl⟩
  · refine ⟨{ inputValue := s.inputValue, inputDisabled := false, sendDisabled := false,
              chatMessages := s.chatMessages ++ [m], requests := s.requests,
              inFlight := s.inFlight - 1, notices := s.notices,
              consoleErrors := s.consoleErrors }, m, ?_, hm, rfl, rfl, rfl, rfl, rfl⟩
    simp only [Script.sendMessageResume, h]

theorem script_try_of_failure (parser : String → Nat) (s : Script.Chatbot) (o : FetchOutcome)
    (hfail : o.isFailure = true) : ∃ e, Script.sendMessageTry parser s o = (s, some e) := by
  rcases o with _ | ⟨ok, json⟩
  · exact ⟨_, rfl⟩
  cases ok
  · exact ⟨_, rfl⟩
  rcases json with _ | data
  · exact ⟨_, rfl⟩
  · simp [FetchOutcome.isFailure] at hfail

/-! ## Lemmas on college_chatbot.js -/

theorem college_sync_empty (c : College.Chatbox) (h : trim c.inputValue = "") :
    College.sendMessageSync c = .ok (c, false) := by
  simp [College.sendMessageSync, h]

theorem college_sync_nonempty (c : College.Chatbox) (h : trim c.inputValue ≠ "") :
    College.sendMessageSync c =
      .ok ({ inputValue := "", body := c.body ++ [College.userMessage (trim c.inputValue)],
             requests := c.requests ++ [chatRequest (trim c.inputValue)],
             inFlight := c.inFlight + 1,
             unhandledRejections := c.unhandledRejections }, true) := by
  simp [College.sendMessageSync, h, College.addMessage, College.userMessage]

theorem college_addMessage_bot_body (c c1 : College.Chatbox) (text : JsVal)
    (h : College.addMessage c text .bot = .ok c1) :
    ∃ m, m.sender = .bot ∧ c1.body = c.body ++ [m] := by
  simp only [College.addMessage] at h
  split at h
  · exact absurd h (by simp)
  · simp only [Except.ok.injEq] at h
    subst h
    exact ⟨_, rfl, rfl⟩

theorem college_resume_body (c : College.Chatbox) (o : FetchOutcome) :
    ∃ rest, (∀ m ∈ rest, m.sender = Sender.bot) ∧
      (College.sendMessageResume c o).body = c.body ++ rest := by
  rcases o with _ | ⟨ok, json⟩
  · exact ⟨[], by simp, by simp [College.sendMessageResume]⟩
  rcases json with _ | data
  · exact ⟨[], by simp, by simp [College.sendMessageResume]⟩
  cases hr : data.getProp "response" with
  | error e => exact ⟨[], by simp, by simp [College.sendMessageResume, hr]⟩
  | ok resp =>
    cases ha : College.addMessage { c with inFlight := c.inFlight - 1 } resp .bot with
    | error e => exact ⟨[], by simp, by simp [College.sendMessageResume, hr, ha]⟩
    | ok c1 =>
      obtain ⟨m, hm, hb⟩ := college_addMessage_bot_body _ c1 resp ha
      refine ⟨[m], by simpa using hm, ?_⟩
      simp [College.sendMessageResume, hr, ha, hb]

theorem college_addMessage_requests (c c1 : College.Chatbox) (text : JsVal) (sender : Sender)
    (h : College.addMessage c text sender = .ok c1) : c1.requests = c.requests := by
  cases sender with
  | user =>
    simp only [College.addMessage, Except.ok.injEq] at h
    subst h
    rfl
  | bot =>
    simp only [College.addMessage] at h
    split at h
    · exact absurd h (by simp)
    · simp only [Except.ok.injEq] at h
      subst h
      rfl

theorem college_resume_requests (c : College.Chatbox) (o : FetchOutcome) :
    (College.sendMessageResume c o).requests = c.requests := by
  rcases o with _ | ⟨ok, json⟩
  · simp [College.sendMessageResume]
  rcases json with _ | data
  · simp [College.sendMessageResume]
  cases hr : data.getProp "response" with
  | error e => simp [College.sendMessageResume, hr]
  | ok resp =>
    cases ha : College.addMessage { c with inFlight := c.inFlight - 1 } resp .bot with
    | error e => simp [College.sendMessageResume, hr, ha]
    | ok c1 =>
      have h := college_addMessage_requests _ c1 resp .bot ha
      simp [College.sendMessageResume, hr, ha, h]

/-- In college_chatbot.js a call with non-blank input works in every state: it
appends its user message, then bot messages only, and sends one `/chat`
request. -/
theorem college_send_nonblank (c : College.Chatbox) (v : String) (o : FetchOutcome)
    (hv : trim v ≠ "") :
    ∃ c2 rest, College.sendMessage { c with inputValue := v } o = .ok c2 ∧
      (∀ m ∈ rest, m.sender = Sender.bot) ∧
      c2.body = c.body ++
        { sender := .user, span := .textContent (.str (trim v)), voteBar := none } :: rest ∧
      c2.requests = c.requests ++ [chatRequest (trim v)] := by
  have hsync := college_sync_nonempty { c with inputValue := v } hv
  obtain ⟨rest, hrest, hb⟩ := college_resume_body
    { inputValue := "", body := c.body ++ [College.userMessage (trim v)],
      requests := c.requests ++ [chatRequest (trim v)],
      inFlight := c.inFlight + 1,
      unhandledRejections := c.unhandledRejections } o
  have hq := college_resume_requests
    { inputValue := "", body := c.body ++ [College.userMessage (trim v)],
      requests := c.requests ++ [chatRequest (trim v)],
      inFlight := c.inFlight + 1,
      unhandledRejections := c.unhandledRejections } o
  refine ⟨College.sendMessageResume
    { inputValue := "", body := c.body ++ [College.userMessage (trim v)],
      requests := c.requests ++ [chatRequest (trim v)],
      inFlight := c.inFlight + 1,
      unhandledRejections := c.unhandledRejections } o, rest, ?_, hrest, ?_, ?_⟩
  · simp only [College.sendMessage, hsync]
  · rw [hb]
    simp [College.userMessage]
  · rw [hq]

/-! ## C1: blank input -/

/-- C1: when the input value is empty or holds white space only, a call of
`sendMessage` sends no request and appends no message, in both widgets.  In
script.js the call only shows the notice: the message list, the request log and
the enabled state of the input and of the send button are as before.  In
college_chatbot.js the page is unchanged. -/
theorem blank_input_sends_nothing (parser : String → Nat) (s : Script.Chatbot)
    (c : College.Chatbox) (o : FetchOutcome)
    (hs : ∀ ch ∈ s.inputValue.data, isJsWhitespace ch = true)
    (hc : ∀ ch ∈ c.inputValue.data, isJsWhitespace ch = true) :
    Script.sendMessage parser s o =
      .ok { inputValue := s.inputValue, inputDisabled := s.inputDisabled,
            sendDisabled := s.sendDisabled, chatMessages := s.chatMessages,
            requests := s.requests, inFlight := s.inFlight,
            notices := s.notices ++ ["Please enter a message"],
            consoleErrors := s.consoleErrors } ∧
    College.sendMessage c o = .ok c := by
  constructor
  · simp only [Script.sendMessage, script_sync_empty s (trim_eq_empty _ hs)]
    rfl
  · simp only [College.sendMessage, college_sync_empty c (trim_eq_empty _ hc)]

theorem blank_input_sends_nothing_witness :
    (∀ ch ∈ " \t\n".data, isJsWhitespace ch = true) ∧
    (∀ ch ∈ "".data, isJsWhitespace ch = true) ∧
    Script.sendMessage (fun _ => 0) ⟨" \t\n", false, false, [], [], 0, [], []⟩ .rejected =
      .ok ⟨" \t\n", false, false, [], [], 0, ["Please enter a message"], []⟩ ∧
    College.sendMessage ⟨"", [], [], 0, []⟩ .rejected = .ok ⟨"", [], [], 0, []⟩ :=
  ⟨by decide, by decide,
    blank_input_sends_nothing (fun _ => 0) ⟨" \t\n", false, false, [], [], 0, [], []⟩
      ⟨"", [], [], 0, []⟩ .rejected (by decide) (by decide)⟩

/-! ## C2: the user message -/

/-- C2: when the trimmed input `t` is not empty, a call of `sendMessage` appends
exactly one user message, in both widgets: the message list becomes the old
list, then a user message whose text element received `t` through `textContent`
(not `innerHTML`), then bot messages only (in script.js exactly one, in
college_chatbot.js at most the reply). -/
theorem nonblank_input_appends_one_user_message (parser : String → Nat)
    (s : Script.Chatbot) (c : College.Chatbox) (o : FetchOutcome)
    (hs : trim s.inputValue ≠ "") (hc : trim c.inputValue ≠ "") :
    (∃ s1 m, Script.sendMessage parser s o = .ok s1 ∧ m.sender = Sender.bot ∧
      s1.chatMessages = s.chatMessages ++
        [{ sender := .user, avatar := .user Script.userSvg,
           text := .textContent (.str (trim s.inputValue)), voteListeners := [] }, m]) ∧
    (∃ c1 rest, College.sendMessage c o = .ok c1 ∧ (∀ m ∈ rest, m.sender = Sender.bot) ∧
      c1.body = c.body ++
        { sender := .user, span := .textContent (.str (trim c.inputValue)),
          voteBar := none } :: rest) := by
  constructor
  · obtain ⟨s1, m, h1, hm, hmsgs, -⟩ := script_resume_total parser
      { inputValue := "", inputDisabled := true, sendDisabled := true,
        chatMessages := s.chatMessages ++ [Script.userMessage (trim s.inputValue)],
        requests := s.requests ++ [chatRequest (trim s.inputValue)],
        inFlight := s.inFlight + 1, notices := s.notices,
        consoleErrors := s.consoleErrors } o
    refine ⟨s1, m, ?_, hm, ?_⟩
    · simp only [Script.sendMessage, script_sync_nonempty s hs, h1]
    · rw [hmsgs]
      simp [Script.userMessage]
  · obtain ⟨rest, hrest, hb⟩ := college_resume_body
      { inputValue := "", body := c.body ++ [College.userMessage (trim c.inputValue)],
        requests := c.requests ++ [chatRequest (trim c.inputValue)],
        inFlight := c.inFlight + 1,
        unhandledRejections := c.unhandledRejections } o
    refine ⟨College.sendMessageResume
      { inputValue := "", body := c.body ++ [College.userMessage (trim c.inputValue)],
        requests := c.requests ++ [chatRequest (trim c.inputValue)],
        inFlight := c.inFlight + 1,
        unhandledRejections := c.unhandledRejections } o, rest, ?_, hrest, ?_⟩
    · simp only [College.sendMessage, college_sync_nonempty c hc]
    · rw [hb]
      simp [College.userMessage]

theorem nonblank_input_appends_one_user_message_witness :
    trim " <b>hi</b> " ≠ "" ∧
    (∃ s1 m, Script.sendMessage (fun _ => 0)
        ⟨" <b>hi</b> ", false, false, [], [], 0, [], []⟩ .rejected = .ok s1 ∧
      m.sender = Sender.bot ∧
      s1.chatMessages = [] ++
        [{ sender := .user, avatar := .user Script.userSvg,
           text := .textContent (.str (trim " <b>hi</b> ")), voteListeners := [] }, m]) :=
  ⟨by decide,
    (nonblank_input_appends_one_user_message (fun _ => 0)
      ⟨" <b>hi</b> ", false, false, [], [], 0, [], []⟩ ⟨" <b>hi</b> ", [], [], 0, []⟩
      .rejected (by decide) (by decide)).1⟩

/-! ## C3: the fallback message of script.js -/

/-- C3: in script.js, when the trimmed input is not empty and the `/chat`
request rejects, answers with a non-success status or has a body that is not
JSON, `sendMessage` completes without an exception; it has appended the user
message and then exactly one bot message, whose markup is the fixed apology
text; and the input and the send button are enabled. -/
theorem script_failure_shows_fallback (parser : String → Nat) (s : Script.Chatbot)
    (o : FetchOutcome) (hs : trim s.inputValue ≠ "") (hfail : o.isFailure = true) :
    ∃ s1, Script.sendMessage parser s o = .ok s1 ∧
      s1.chatMessages = s.chatMessages ++
        [{ sender := .user, avatar := .user Script.userSvg,
           text := .textContent (.str (trim s.inputValue)), voteListeners := [] },
         { sender := .bot, avatar := .bot Script.newBotAvatar,
           text := .innerHTML (.str
             "Sorry, I'm having trouble connecting right now. Please try again in a moment."),
           voteListeners := [] }] ∧
      s1.inputDisabled = false ∧ s1.sendDisabled = false ∧
      s1.requests = s.requests ++ [chatRequest (trim s.inputValue)] := by
  obtain ⟨e, he⟩ := script_try_of_failure parser
    { inputValue := "", inputDisabled := true, sendDisabled := true,
      chatMessages := s.chatMessages ++ [Script.userMessage (trim s.inputValue)],
      requests := s.requests ++ [chatRequest (trim s.inputValue)],
      inFlight := s.inFlight + 1 - 1, notices := s.notices,
      consoleErrors := s.consoleErrors } o hfail
  refine ⟨{ inputValue := "", inputDisabled := false, sendDisabled := false,
            chatMessages := s.chatMessages ++ [Script.userMessage (trim s.inputValue)] ++
              [Script.botMessage Script.fallbackText],
            requests := s.requests ++ [chatRequest (trim s.inputValue)],
            inFlight := s.inFlight + 1 - 1, notices := s.notices,
            consoleErrors := s.consoleErrors ++ [e] }, ?_, ?_, rfl, rfl, rfl⟩
  · simp only [Script.sendMessage, script_sync_nonempty s hs]
    exact script_resume_of_throw parser _ o e he
  · simp [Script.userMessage, Script.botMessage, Script.fallbackText]

theorem script_failure_shows_fallback_witness :
    ∃ s1, Script.sendMessage (fun _ => 0) ⟨"hi", false, false, [], [], 0, [], []⟩
        (.response false (some (.obj [("response", .str "busy")]))) = .ok s1 ∧
      s1.chatMessages = [] ++
        [{ sender := .user, avatar := .user Script.userSvg,
           text := .textContent (.str (trim "hi")), voteListeners := [] },
         { sender := .bot, avatar := .bot Script.newBotAvatar,
           text := .innerHTML (.str
             "Sorry, I'm having trouble connecting right now. Please try again in a moment."),
           voteListeners := [] }] ∧
      s1.inputDisabled = false ∧ s1.sendDisabled = false ∧
      s1.requests = [] ++ [chatRequest (trim "hi")] :=
  script_failure_shows_fallback (fun _ => 0) ⟨"hi", false, false, [], [], 0, [], []⟩
    (.response false (some (.obj [("response", .str "busy")]))) (by decide) rfl

/-! ## C4: vote handlers in script.js -/

/-- C4 as stated fails on the reply `{"response": "Hello", "faq_id": "f1"}`: the
call appends the user message and one bot message, and the bot message holds no
element of class `vote-btn` and got no click listener, even with a parser that
reports two such elements for every markup that has a tag. -/
theorem hello_reply_renders_no_vote_control :
    (Script.sendMessage (fun _ => 2) ⟨"hi", false, false, [], [], 0, [], []⟩
        (.response true (some (.obj [("response", .str "Hello"), ("faq_id", .str "f1")])))
      ).toOption.map (fun s1 => s1.chatMessages.map fun m =>
        (m.sender, Script.voteBtnCount (fun _ => 2) m, m.voteListeners.length)) =
      some [(Sender.user, 0, 0), (Sender.bot, 0, 0)] := by
  decide

/-- C4, amended: in script.js, for a successful reply whose `response` is a
string `r` and whose `faq_id` is truthy, `sendMessage` appends after the user
message exactly one bot message, with markup `formatMessage(r)`, and enables
the controls.  `addMessage` creates no vote control; the listeners
`postVote(faq_id, true)` and `postVote(faq_id, false)` are added, to the first
and the second `.vote-btn` element, exactly when the markup of the message
yields exactly two such elements, and no listener is added otherwise.  Markup
without a `<` yields none. -/
theorem script_reply_wires_votes_on_markup_buttons (parser : String → Nat)
    (s : Script.Chatbot) (data : JsVal) (r : String) (faq_id : JsVal)
    (hs : trim s.inputValue ≠ "")
    (hr : data.getProp "response" = .ok (.str r))
    (hf : data.getProp "faq_id" = .ok faq_id) (ht : faq_id.truthy = true) :
    Script.sendMessage parser s (.response true (some data)) =
      .ok { inputValue := "", inputDisabled := false, sendDisabled := false,
            chatMessages := s.chatMessages ++
              [{ sender := .user, avatar := .user Script.userSvg,
                 text := .textContent (.str (trim s.inputValue)), voteListeners := [] },
               { sender := .bot, avatar := .bot Script.newBotAvatar,
                 text := .innerHTML (.str (formatMessage r)),
                 voteListeners :=
                   if Script.voteBtnCount parser (Script.botMessage (formatMessage r)) = 2
                   then [(0, .postVote faq_id true), (1, .postVote faq_id false)]
                   else [] }],
            requests := s.requests ++ [chatRequest (trim s.inputValue)],
            inFlight := s.inFlight, notices := s.notices,
            consoleErrors := s.consoleErrors } ∧
    ('<' ∉ (formatMessage r).data →
      Script.voteBtnCount parser (Script.botMessage (formatMessage r)) = 0) := by
  constructor
  · simp only [Script.sendMessage, script_sync_nonempty s hs, Script.sendMessageResume]
    by_cases hc : Script.voteBtnCount parser (Script.botMessage (formatMessage r)) = 2
    · have hc2 : Script.voteBtnCount parser
          { sender := .bot, avatar := .bot Script.newBotAvatar,
            text := .innerHTML (.str (formatMessage r)), voteListeners := [] } = 2 := hc
      simp [Script.sendMessageTry, hr, hf, ht, Script.addMessage, formatMessageVal,
        Script.attachVoteHandlers, hc, hc2, Script.setInputState, Script.userMessage]
    · have hc2 : ¬ Script.voteBtnCount parser
          { sender := .bot, avatar := .bot Script.newBotAvatar,
            text := .innerHTML (.str (formatMessage r)), voteListeners := [] } = 2 := hc
      simp [Script.sendMessageTry, hr, hf, ht, Script.addMessage, formatMessageVal,
        Script.attachVoteHandlers, hc, hc2, Script.setInputState, Script.userMessage]
  · intro h
    simp [Script.voteBtnCount, Script.botMessage, h]

theorem script_reply_wires_votes_on_markup_buttons_witness :
    Script.sendMessage (fun _ => 0) ⟨"hi", false, false, [], [], 0, [], []⟩
        (.response true (some (.obj [("response", .str "Hello"), ("faq_id", .str "f1")]))) =
      .ok { inputValue := "", inputDisabled := false, sendDisabled := false,
            chatMessages := [] ++
              [{ sender := .user, avatar := .user Script.userSvg,
                 text := .textContent (.str (trim "hi")), voteListeners := [] },
               { sender := .bot, avatar := .bot Script.newBotAvatar,
                 text := .innerHTML (.str (formatMessage "Hello")),
                 voteListeners :=
                   if Script.voteBtnCount (fun _ => 0)
                       (Script.botMessage (formatMessage "Hello")) = 2
                   then [(0, .postVote (.str "f1") true), (1, .postVote (.str "f1") false)]
                   else [] }],
            requests := [] ++ [chatRequest (trim "hi")],
            inFlight := 0, notices := [], consoleErrors := [] } :=
  (script_reply_wires_votes_on_markup_buttons (fun _ => 0)
    ⟨"hi", false, false, [], [], 0, [], []⟩
    (.obj [("response", .str "Hello"), ("faq_id", .str "f1")]) "Hello" (.str "f1")
    (by decide) rfl rfl rfl).1

/-! ## C6: a failed request in college_chatbot.js -/

/-- C6 as stated fails when the fetch rejects: the message list holds the user
message only, no fallback bot message, and the rejection is unhandled. -/
theorem college_rejected_fetch_renders_no_fallback :
    (College.sendMessage ⟨"hi", [], [], 0, []⟩ .rejected).toOption.map
        (fun c1 => (c1.body.map fun m => m.sender, c1.unhandledRejections)) =
      some ([Sender.user], [JsError.network]) := by
  decide

/-- C6, amended: in college_chatbot.js, when the trimmed input is not empty and
the single `/chat` request delivers no body (the fetch rejects or the body
cannot be parsed), the call appends the user message and nothing else, and the
failure ends as one unhandled promise rejection.  The widget stays usable: from
the state reached, a later call with any non-blank input again appends its user
message, followed by bot messages only, and sends its own `/chat` request. -/
theorem college_failure_is_unhandled (c : College.Chatbox) (o : FetchOutcome)
    (hc : trim c.inputValue ≠ "") (hfail : o.noBody = true) :
    ∃ c1, College.sendMessage c o = .ok c1 ∧
      c1 = { inputValue := "",
             body := c.body ++
               [{ sender := .user, span := .textContent (.str (trim c.inputValue)),
                  voteBar := none }],
             requests := c.requests ++ [chatRequest (trim c.inputValue)],
             inFlight := c.inFlight,
             unhandledRejections := c.unhandledRejections ++
               [match o with
                | .rejected => JsError.network
                | .response _ _ => JsError.badJson] } ∧
      ∀ (v : String) (o2 : FetchOutcome), trim v ≠ "" →
        ∃ c2 rest, College.sendMessage { c1 with inputValue := v } o2 = .ok c2 ∧
          (∀ m ∈ rest, m.sender = Sender.bot) ∧
          c2.body = c1.body ++
            { sender := .user, span := .textContent (.str (trim v)), voteBar := none } ::
              rest ∧
          c2.requests = c1.requests ++ [chatRequest (trim v)] := by
  have hfirst : College.sendMessage c o =
      .ok { inputValue := "",
            body := c.body ++
              [{ sender := .user, span := .textContent (.str (trim c.inputValue)),
                 voteBar := none }],
            requests := c.requests ++ [chatRequest (trim c.inputValue)],
            inFlight := c.inFlight,
            unhandledRejections := c.unhandledRejections ++
              [match o with
               | .rejected => JsError.network
               | .response _ _ => JsError.badJson] } := by
    rcases o with _ | ⟨ok, json⟩
    · simp [College.sendMessage, college_sync_nonempty c hc, College.sendMessageResume,
        College.userMessage]
    rcases json with _ | data
    · simp [College.sendMessage, college_sync_nonempty c hc, College.sendMessageResume,
        College.userMessage]
    · simp [FetchOutcome.noBody] at hfail
  refine ⟨_, hfirst, rfl, ?_⟩
  intro v o2 hv
  exact college_send_nonblank _ v o2 hv

theorem college_failure_is_unhandled_witness :
    ∃ c1, College.sendMessage ⟨"hi", [], [], 0, []⟩ (.response true none) = .ok c1 ∧
      c1 = { inputValue := "",
             body := [] ++
               [{ sender := .user, span := .textContent (.str (trim "hi")),
                  voteBar := none }],
             requests := [] ++ [chatRequest (trim "hi")],
             inFlight := 0,
             unhandledRejections := [] ++
               [match FetchOutcome.response true none with
                | .rejected => JsError.network
                | .response _ _ => JsError.badJson] } ∧
      ∀ (v : String) (o2 : FetchOutcome), trim v ≠ "" →
        ∃ c2 rest, College.sendMessage { c1 with inputValue := v } o2 = .ok c2 ∧
          (∀ m ∈ rest, m.sender = Sender.bot) ∧
          c2.body = c1.body ++
            { sender := .user, span := .textContent (.str (trim v)), voteBar := none } ::
              rest ∧
          c2.requests = c1.requests ++ [chatRequest (trim v)] :=
  college_failure_is_unhandled ⟨"hi", [], [], 0, []⟩ (.response true none) (by decide) rfl

/-! ## C5: vote buttons in college_chatbot.js -/

theorem college_addMessage_bot (c : College.Chatbox) (text faq_id markup : JsVal)
    (h : (if text.typeofObject then
            match text.getProp "faq_id" with
            | .error e => .error e
            | .ok faq_id =>
              match text.getProp "html" with
              | .error e => .error e
              | .ok html => .ok (faq_id, if html.truthy then html else .str "")
          else .ok (.null, text) : Except JsError (JsVal × JsVal)) = .ok (faq_id, markup)) :
    College.addMessage c text .bot =
      .ok { c with body := c.body ++
        [{ sender := .bot, span := .innerHTML markup,
           voteBar := some
             [{ className := "vote-btn", textContent := "Helpful 👍",
                clickListeners := if faq_id.truthy then [.postVote faq_id true] else [] },
              { className := "vote-btn", textContent := "Not helpful 👎",
                clickListeners := if faq_id.truthy then [.postVote faq_id false] else [] }] }] } := by
  simp only [College.addMessage, h]

theorem college_read_content (text : JsVal) (h : text ≠ .null) :
    ∃ faq_id markup,
      (if text.typeofObject then
            match text.getProp "faq_id" with
            | .error e => .error e
            | .ok faq_id =>
              match text.getProp "html" with
              | .error e => .error e
              | .ok html => .ok (faq_id, if html.truthy then html else .str "")
          else .ok (.null, text) : Except JsError (JsVal × JsVal)) = .ok (faq_id, markup) ∧
      (faq_id.truthy = true → College.identifierOf text = some faq_id) ∧
      (faq_id.truthy = false → College.identifierOf text = none) := by
  cases text with
  | null => exact absurd rfl h
  | obj fields =>
    cases hl : fields.lookup "faq_id" with
    | none =>
      exact ⟨.undefined, _, by simp [JsVal.typeofObject, JsVal.getProp, hl]; rfl,
        by simp [JsVal.truthy], by simp [College.identifierOf, hl]⟩
    | some v =>
      refine ⟨v, _, by simp [JsVal.typeofObject, JsVal.getProp, hl]; rfl, ?_, ?_⟩
      · intro ht
        simp [College.identifierOf, hl, ht]
      · intro ht
        simp [College.identifierOf, hl, ht]
  | arr items =>
    exact ⟨.undefined, _, by simp [JsVal.typeofObject, JsVal.getProp]; rfl,
      by simp [JsVal.truthy], by simp [College.identifierOf]⟩
  | _ =>
    exact ⟨.null, _, by simp [JsVal.typeofObject]; rfl,
      by simp [JsVal.truthy], by simp [College.identifierOf]⟩

/-- C5: in college_chatbot.js, `addMessage(text, 'bot')` renders a bot message
for every content but `null` (on `null` it throws before anything is appended),
and every bot message it renders has exactly two vote buttons, labelled
"Helpful" and "Not helpful"; rendering sends nothing.  A later click on the
first button sends one `POST /api/vote` with body `{faq_id: id, helpful: true}`,
and a click on the second one with `helpful: false`, when the content carried
the identifier `id`; when the content carried no identifier, a click on either
button sends nothing. -/
theorem college_bot_message_vote_buttons (c : College.Chatbox) (text : JsVal) :
    (text = .null → College.addMessage c text .bot = .error .typeError) ∧
    (text ≠ .null →
      ∃ c1 markup up down,
        College.addMessage c text .bot = .ok c1 ∧
        c1.body = c.body ++
          [{ sender := .bot, span := .innerHTML markup, voteBar := some [up, down] }] ∧
        c1.requests = c.requests ∧
        up.textContent = "Helpful 👍" ∧ down.textContent = "Not helpful 👎" ∧
        ∀ c2 : College.Chatbox,
          (College.clickButton c2 up).requests = c2.requests ++
            (match College.identifierOf text with
             | some id => [{ url := "/api/vote", method := "POST",
                             body := .obj [("faq_id", id), ("helpful", .bool true)] }]
             | none => []) ∧
          (College.clickButton c2 down).requests = c2.requests ++
            (match College.identifierOf text with
             | some id => [{ url := "/api/vote", method := "POST",
                             body := .obj [("faq_id", id), ("helpful", .bool false)] }]
             | none => [])) := by
  constructor
  · intro h
    subst h
    rfl
  · intro h
    obtain ⟨faq_id, markup, hread, hyes, hno⟩ := college_read_content text h
    refine ⟨_, markup, _, _, college_addMessage_bot c text faq_id markup hread,
      rfl, rfl, rfl, rfl, ?_⟩
    intro c2
    cases ht : faq_id.truthy with
    | true =>
      simp [College.clickButton, College.postVote, voteRequest, hyes ht, ht]
    | false =>
      simp [College.clickButton, hno ht]

theorem college_bot_message_vote_buttons_witness :
    JsVal.obj [("html", .str "<p>Fees</p>"), ("faq_id", .num 7)] ≠ .null ∧
    ∃ c1 markup up down,
      College.addMessage ⟨"", [], [], 0, []⟩
        (.obj [("html", .str "<p>Fees</p>"), ("faq_id", .num 7)]) .bot = .ok c1 ∧
      c1.body = [] ++
        [{ sender := .bot, span := .innerHTML markup, voteBar := some [up, down] }] ∧
      c1.requests = [] ∧
      up.textContent = "Helpful 👍" ∧ down.textContent = "Not helpful 👎" ∧
      ∀ c2 : College.Chatbox,
        (College.clickButton c2 up).requests = c2.requests ++
          (match College.identifierOf
              (.obj [("html", .str "<p>Fees</p>"), ("faq_id", .num 7)]) with
           | some id => [{ url := "/api/vote", method := "POST",
                           body := .obj [("faq_id", id), ("helpful", .bool true)] }]
           | none => []) ∧
        (College.clickButton c2 down).requests = c2.requests ++
          (match College.identifierOf
              (.obj [("html", .str "<p>Fees</p>"), ("faq_id", .num 7)]) with
           | some id => [{ url := "/api/vote", method := "POST",
                           body := .obj [("faq_id", id), ("helpful", .bool false)] }]
           | none => []) :=
  ⟨fun h => JsVal.noConfusion h,
    (college_bot_message_vote_buttons ⟨"", [], [], 0, []⟩
      (.obj [("html", .str "<p>Fees</p>"), ("faq_id", .num 7)])).2
      (fun h => JsVal.noConfusion h)⟩

/-! ## C7: requests in flight in script.js -/

/-- While the send button is disabled a click on it does nothing, and while the
input is disabled an Enter key press does nothing. -/
theorem disabled_controls_block_click_and_enter (parser : String → Nat)
    (s : Script.Chatbot) :
    (s.sendDisabled = true → Script.step parser s .clickSend = s) ∧
    (s.inputDisabled = true → Script.step parser s .pressEnter = s) := by
  constructor <;> intro h <;> simp [Script.step, h]

/-- A quick-reply button and `sendSuggestion` send a request in every state,
also while the controls are disabled and a request is in flight. -/
theorem quick_reply_ignores_disabled_controls (parser : String → Nat) (s : Script.Chatbot)
    (q text : String) (hq : trim (Script.sanitizeValue q) ≠ "") :
    ((Script.step parser s (.suggestion q)).inFlight = s.inFlight + 1 ∧
      (Script.step parser s (.suggestion q)).requests =
        s.requests ++ [chatRequest (trim (Script.sanitizeValue q))]) ∧
    ((Script.step parser s (.quickReply (some q) text)).inFlight = s.inFlight + 1 ∧
      (Script.step parser s (.quickReply (some q) text)).requests =
        s.requests ++ [chatRequest (trim (Script.sanitizeValue q))]) := by
  have h := script_sync_nonempty { s with inputValue := Script.sanitizeValue q } hq
  have hne : q ≠ "" := by
    intro e
    apply hq
    rw [e]
    decide
  constructor
  · simp [Script.step, Script.trigger, h]
  · simp [Script.step, Script.trigger, h, hne]

/-- C7 fails on the code: after a send by the button, a click on a quick-reply
button while that request is still in flight sends a second `/chat` request, so
two requests are in flight at once. -/
theorem quick_reply_sends_second_request_in_flight :
    (Script.run (fun _ => 0) Script.initial
        [.typeText "Fees?", .clickSend]).inFlight = 1 ∧
    (Script.run (fun _ => 0) Script.initial
        [.typeText "Fees?", .clickSend]).sendDisabled = true ∧
    (Script.run (fun _ => 0) Script.initial
        [.typeText "Fees?", .clickSend, .quickReply (some "Hostel") "Hostel"]).inFlight = 2 ∧
    (Script.run (fun _ => 0) Script.initial
        [.typeText "Fees?", .clickSend, .quickReply (some "Hostel") "Hostel"]).requests.map
        (fun r => r.url) = ["/chat", "/chat"] := by
  decide

end AmjChatbot
